import Mathlib

set_option maxRecDepth 8000

namespace RagDemo

/-!
Shallow embedding of the rag-demo JIRA crawl-and-extract pipeline:
`src/jira/xml_extractors.py`, `src/jira/auth.py` and
`src/data/jira/scraper.py`.

Markup (XML and HTML) is modelled as a tree of nodes, mirroring the
BeautifulSoup object the Python code traverses.  A parsed document is a
list of top-level nodes (the children of the soup).
-/

inductive Node where
  | text : String → Node
  | elem : String → List (String × String) → List Node → Node

/-- Python whitespace, as used by `str.strip()` and by the regex class
`\s` over ASCII input. -/
def isPySpace (c : Char) : Bool :=
  c = ' ' || c = '\t' || c = '\n' || c = '\r' || c = '\x0b' || c = '\x0c'

/-- Python `str.strip()` on ASCII input. -/
def pyStrip (s : String) : String :=
  String.mk (((s.data.dropWhile isPySpace).reverse.dropWhile isPySpace).reverse)

/-- Blank characters matched by the regex class `[ \t]`. -/
def isBlank (c : Char) : Bool :=
  c = ' ' || c = '\t'

mutual

/-- The text segments of a node, in document order (the NavigableStrings
BeautifulSoup would iterate). -/
def textsOfNode : Node → List String
  | .text s => [s]
  | .elem _ _ cs => textsOfList cs

def textsOfList : List Node → List String
  | [] => []
  | n :: ns => textsOfNode n ++ textsOfList ns

end

/-- BeautifulSoup `get_text()` over a list of nodes: plain concatenation of
all text segments. -/
def getTextList (ns : List Node) : String :=
  String.join (textsOfList ns)

/-- BeautifulSoup `get_text()` on one node. -/
def getTextNode (n : Node) : String :=
  String.join (textsOfNode n)

/-- BeautifulSoup `get_text(strip=True)`: each text segment is stripped,
empty segments are dropped, the rest are concatenated. -/
def getTextStripList (ns : List Node) : String :=
  String.join (((textsOfList ns).map pyStrip).filter (fun s => s ≠ ""))

/-- BeautifulSoup `get_text(strip=True)` on one node. -/
def getTextStripNode (n : Node) : String :=
  String.join (((textsOfNode n).map pyStrip).filter (fun s => s ≠ ""))

mutual

/-- BeautifulSoup `find(tag)` over a forest: first element with the given
name in document (pre-order) order. -/
def findTagNode (tag : String) : Node → Option Node
  | .text _ => none
  | .elem nm a cs =>
      if nm = tag then some (.elem nm a cs) else findTagList tag cs

def findTagList (tag : String) : List Node → Option Node
  | [] => none
  | n :: ns =>
      match findTagNode tag n with
      | some r => some r
      | none => findTagList tag ns

end

mutual

/-- BeautifulSoup `find_all(tag)` over a forest: all elements with the
given name, in document order; a matching element is still descended
into, as `find_all` does. -/
def findAllTagNode (tag : String) : Node → List Node
  | .text _ => []
  | .elem nm a cs =>
      (if nm = tag then [Node.elem nm a cs] else []) ++ findAllTagList tag cs

def findAllTagList (tag : String) : List Node → List Node
  | [] => []
  | n :: ns => findAllTagNode tag n ++ findAllTagList tag ns

end

/-- The children of an element (empty for a text node). -/
def childrenOf : Node → List Node
  | .text _ => []
  | .elem _ _ cs => cs

/-- BeautifulSoup `tag.get(name, default)`. -/
def getAttr (n : Node) (name default : String) : String :=
  match n with
  | .text _ => default
  | .elem _ attrs _ =>
      match attrs.find? (fun p => p.1 = name) with
      | some p => p.2
      | none => default

/-!
Date normalization, embedding `_convert_to_iso8601`
(`src/jira/xml_extractors.py` lines 94-159).

`datetime.strptime(s, fmt)` compiles `fmt` to a regex (whitespace runs
become `\s+`, each field becomes an ordered alternation, names match
case-insensitively), takes the first prefix match in backtracking order,
requires it to consume the whole string, and then validates the fields by
constructing a `datetime`.  The parser below enumerates prefix parses in
exactly that backtracking order.
-/

/-- A backtracking parser: all parses, in the backtracking order of the
compiled strptime regex. -/
def DParse (α : Type) := List Char → List (α × List Char)

instance : Monad DParse where
  pure a := fun cs => [(a, cs)]
  bind p f := fun cs => (p cs).flatMap (fun x => f x.1 x.2)

instance : Alternative DParse where
  failure := fun _ => []
  orElse p q := fun cs => p cs ++ (q ()) cs

def pChar (c : Char) : DParse Unit := fun cs =>
  match cs with
  | x :: rest => if x = c then [((), rest)] else []
  | [] => []

/-- A literal letter in a strptime format: the regex is compiled with
IGNORECASE. -/
def pCharCI (c : Char) : DParse Unit := fun cs =>
  match cs with
  | x :: rest => if x.toLower = c.toLower then [((), rest)] else []
  | [] => []

/-- `\s+` (a whitespace run in the format): greedy, longest first. -/
def pWs1 : DParse Unit := fun cs =>
  let k := (cs.takeWhile isPySpace).length
  (List.range k).map (fun i => ((), cs.drop (k - i)))

def digitVal (c : Char) : Nat := c.toNat - 48

/-- One digit with value in `[lo, hi]`. -/
def pDigitRange (lo hi : Nat) : DParse Nat := fun cs =>
  match cs with
  | c :: rest =>
      if c.isDigit && lo ≤ digitVal c && digitVal c ≤ hi then [(digitVal c, rest)] else []
  | [] => []

/-- `%d`: `3[01]|[12]\d|0[1-9]|[1-9]| [1-9]`. -/
def pDay : DParse Nat :=
  (do pChar '3'; let d ← pDigitRange 0 1; pure (30 + d)) <|>
  (do let t ← pDigitRange 1 2; let d ← pDigitRange 0 9; pure (10 * t + d)) <|>
  (do pChar '0'; pDigitRange 1 9) <|>
  pDigitRange 1 9 <|>
  (do pChar ' '; pDigitRange 1 9)

/-- `%H`: `2[0-3]|[0-1]\d|\d`. -/
def pHour : DParse Nat :=
  (do pChar '2'; let d ← pDigitRange 0 3; pure (20 + d)) <|>
  (do let t ← pDigitRange 0 1; let d ← pDigitRange 0 9; pure (10 * t + d)) <|>
  pDigitRange 0 9

/-- `%M`: `[0-5]\d|\d`. -/
def pMinute : DParse Nat :=
  (do let t ← pDigitRange 0 5; let d ← pDigitRange 0 9; pure (10 * t + d)) <|>
  pDigitRange 0 9

/-- `%S`: `6[0-1]|[0-5]\d|\d` (leap seconds pass the regex and are
rejected only by `datetime` construction). -/
def pSecond : DParse Nat :=
  (do pChar '6'; let d ← pDigitRange 0 1; pure (60 + d)) <|>
  (do let t ← pDigitRange 0 5; let d ← pDigitRange 0 9; pure (10 * t + d)) <|>
  pDigitRange 0 9

/-- `%Y`: exactly four digits. -/
def pYear4 : DParse Nat := do
  let a ← pDigitRange 0 9
  let b ← pDigitRange 0 9
  let c ← pDigitRange 0 9
  let d ← pDigitRange 0 9
  pure (((a * 10 + b) * 10 + c) * 10 + d)

/-- `%m`: `1[0-2]|0[1-9]|[1-9]`. -/
def pMonthNum : DParse Nat :=
  (do pChar '1'; let d ← pDigitRange 0 2; pure (10 + d)) <|>
  (do pChar '0'; pDigitRange 1 9) <|>
  pDigitRange 1 9

/-- Digits read by `%f`, padded on the right to microseconds. -/
def fracOf (ds : List Char) : Nat :=
  (ds.foldl (fun a c => a * 10 + digitVal c) 0) * 10 ^ (6 - ds.length)

/-- `%f`: `\d{1,6}`, greedy (longest first). -/
def pFrac : DParse Nat := fun cs =>
  let k := min (cs.takeWhile Char.isDigit).length 6
  (List.range k).map (fun i => (fracOf (cs.take (k - i)), cs.drop (k - i)))

/-- A name from the list, matched case-insensitively; alternatives in
list order (all the same length here, as in `_strptime`). Returns the
one-based index. -/
def pNameCI (names : List String) : DParse Nat := fun cs =>
  (names.enum).flatMap (fun p =>
    let k := p.2.length
    if (cs.take k).map Char.toLower = p.2.data then [(p.1 + 1, cs.drop k)] else [])

/-- `%a` matches only the abbreviated weekday names of the C locale. -/
def aWeekdays : List String := ["mon", "tue", "wed", "thu", "fri", "sat", "sun"]

/-- `%b` matches only the abbreviated month names of the C locale. -/
def aMonths : List String :=
  ["jan", "feb", "mar", "apr", "may", "jun", "jul", "aug", "sep", "oct", "nov", "dec"]

def pWeekday : DParse Nat := pNameCI aWeekdays

def pMonthName : DParse Nat := pNameCI aMonths

/-- A parsed UTC offset: sign and magnitude components as read by `%z`. -/
structure TZ where
  neg : Bool
  h : Nat
  m : Nat
  s : Nat
  usec : Nat
deriving DecidableEq

/-- `%z`: `[+-]\d\d:?\d\d(:?\d\d(\.\d{1,6})?)?|Z` (the `Z` alternative is
case-sensitive). -/
def pZ : DParse TZ :=
  (do
    let sign ← (do pChar '+'; pure false) <|> (do pChar '-'; pure true)
    let h1 ← pDigitRange 0 9
    let h2 ← pDigitRange 0 9
    _ ← pChar ':' <|> pure ()
    let m1 ← pDigitRange 0 9
    let m2 ← pDigitRange 0 9
    let rest ← (do
        _ ← pChar ':' <|> pure ()
        let s1 ← pDigitRange 0 9
        let s2 ← pDigitRange 0 9
        let us ← (do pChar '.'; pFrac) <|> pure 0
        pure (10 * s1 + s2, us)) <|> pure (0, 0)
    pure (TZ.mk sign (10 * h1 + h2) (10 * m1 + m2) rest.1 rest.2)) <|>
  (do
    _ ← (fun cs => match cs with
          | 'Z' :: rest => [((), rest)]
          | _ => [] : DParse Unit)
    pure (TZ.mk false 0 0 0 0))

/-- The fields of a `datetime` as produced by `strptime`. -/
structure DT where
  y : Nat
  mo : Nat
  d : Nat
  h : Nat
  mi : Nat
  s : Nat
  usec : Nat
  tz : Option TZ
deriving DecidableEq

def daysInMonth (y mo : Nat) : Nat :=
  if mo = 2 then
    (if y % 4 = 0 && (y % 100 ≠ 0 || y % 400 = 0) then 29 else 28)
  else if mo = 4 || mo = 6 || mo = 9 || mo = 11 then 30
  else 31

/-- `timezone(timedelta(...))` requires the offset to be strictly
between -24 and +24 hours. -/
def validTZ (tz : TZ) : Bool :=
  ((tz.h * 60 + tz.m) * 60 + tz.s) * 1000000 + tz.usec < 24 * 3600 * 1000000

/-- The checks `datetime(...)` performs on strptime output; field ranges
already enforced by the regex are rechecked harmlessly. -/
def validDT (dt : DT) : Bool :=
  1 ≤ dt.y && dt.y ≤ 9999 && 1 ≤ dt.mo && dt.mo ≤ 12 &&
  1 ≤ dt.d && dt.d ≤ daysInMonth dt.y dt.mo &&
  dt.h ≤ 23 && dt.mi ≤ 59 && dt.s ≤ 59 &&
  (match dt.tz with
   | none => true
   | some tz => validTZ tz)

/-- `"%a, %d %b %Y %H:%M:%S %z"`. -/
def fmtRFC822 : DParse DT := do
  _ ← pWeekday
  pChar ','
  pWs1
  let d ← pDay
  pWs1
  let mo ← pMonthName
  pWs1
  let y ← pYear4
  pWs1
  let h ← pHour
  pChar ':'
  let mi ← pMinute
  pChar ':'
  let s ← pSecond
  pWs1
  let tz ← pZ
  pure (DT.mk y mo d h mi s 0 (some tz))

/-- `"%Y-%m-%dT%H:%M:%S.%f%z"`. -/
def fmtISOFrac : DParse DT := do
  let y ← pYear4
  pChar '-'
  let mo ← pMonthNum
  pChar '-'
  let d ← pDay
  pCharCI 'T'
  let h ← pHour
  pChar ':'
  let mi ← pMinute
  pChar ':'
  let s ← pSecond
  pChar '.'
  let f ← pFrac
  let tz ← pZ
  pure (DT.mk y mo d h mi s f (some tz))

/-- `"%Y-%m-%dT%H:%M:%S%z"`. -/
def fmtISOTz : DParse DT := do
  let y ← pYear4
  pChar '-'
  let mo ← pMonthNum
  pChar '-'
  let d ← pDay
  pCharCI 'T'
  let h ← pHour
  pChar ':'
  let mi ← pMinute
  pChar ':'
  let s ← pSecond
  let tz ← pZ
  pure (DT.mk y mo d h mi s 0 (some tz))

/-- `"%Y-%m-%d %H:%M:%S"`. -/
def fmtSpace : DParse DT := do
  let y ← pYear4
  pChar '-'
  let mo ← pMonthNum
  pChar '-'
  let d ← pDay
  pWs1
  let h ← pHour
  pChar ':'
  let mi ← pMinute
  pChar ':'
  let s ← pSecond
  pure (DT.mk y mo d h mi s 0 none)

/-- `"%Y-%m-%dT%H:%M:%S"`. -/
def fmtT : DParse DT := do
  let y ← pYear4
  pChar '-'
  let mo ← pMonthNum
  pChar '-'
  let d ← pDay
  pCharCI 'T'
  let h ← pHour
  pChar ':'
  let mi ← pMinute
  pChar ':'
  let s ← pSecond
  pure (DT.mk y mo d h mi s 0 none)

/-- `datetime.strptime`: first prefix match in backtracking order; it must
consume the whole string, and the fields must form a valid datetime. -/
def strptime (p : DParse DT) (s : String) : Option DT :=
  match p s.data with
  | [] => none
  | (dt, rest) :: _ =>
      if rest.isEmpty then (if validDT dt then some dt else none) else none

def padZeros (w : Nat) (s : String) : String :=
  if s.length < w then String.mk (List.replicate (w - s.length) '0') ++ s else s

def pad2 (n : Nat) : String := padZeros 2 (toString n)

def pad4 (n : Nat) : String := padZeros 4 (toString n)

def pad6 (n : Nat) : String := padZeros 6 (toString n)

/-- `datetime.isoformat` rendering of a UTC offset (a `timedelta`
normalizes its components first). -/
def tzString (tz : TZ) : String :=
  let totus := (((tz.h * 60 + tz.m) * 60 + tz.s) * 1000000 + tz.usec : Nat)
  let sign := if tz.neg && totus ≠ 0 then "-" else "+"
  let sec := totus / 1000000
  let us := totus % 1000000
  sign ++ pad2 (sec / 3600) ++ ":" ++ pad2 (sec % 3600 / 60) ++
    (if sec % 60 ≠ 0 || us ≠ 0 then
      ":" ++ pad2 (sec % 60) ++ (if us ≠ 0 then "." ++ pad6 us else "")
    else "")

/-- `datetime.isoformat()`. -/
def isoformat (dt : DT) : String :=
  pad4 dt.y ++ "-" ++ pad2 dt.mo ++ "-" ++ pad2 dt.d ++ "T" ++
  pad2 dt.h ++ ":" ++ pad2 dt.mi ++ ":" ++ pad2 dt.s ++
  (if dt.usec ≠ 0 then "." ++ pad6 dt.usec else "") ++
  (match dt.tz with
   | none => ""
   | some tz => tzString tz)

/-- The `formats_to_try` loop: first format whose strptime succeeds. -/
def tryKnownFormats (s : String) : Option String :=
  (List.findSome? (fun p => strptime p s) [fmtRFC822, fmtISOFrac, fmtISOTz, fmtSpace, fmtT]).map
    isoformat

/-- `\w` over ASCII input. -/
def isWordChar (c : Char) : Bool := c.isAlphanum || c = '_'

def eatChar (c : Char) (cs : List Char) : Option (List Char) :=
  match cs with
  | x :: rest => if x = c then some rest else none
  | [] => none

def eatDigits (cs : List Char) : Option (String × List Char) :=
  let d := cs.takeWhile Char.isDigit
  if d.isEmpty then none else some (String.mk d, cs.drop d.length)

def eatWord (cs : List Char) : Option (String × List Char) :=
  let d := cs.takeWhile isWordChar
  if d.isEmpty then none else some (String.mk d, cs.drop d.length)

def month_map : List (String × String) :=
  [("Jan", "01"), ("Feb", "02"), ("Mar", "03"), ("Apr", "04"), ("May", "05"),
   ("Jun", "06"), ("Jul", "07"), ("Aug", "08"), ("Sep", "09"), ("Oct", "10"),
   ("Nov", "11"), ("Dec", "12")]

/-- `re.match` of `(\w+), (\d+) (\w+) (\d+) (\d+):(\d+):(\d+) ([+-]\d{4})`
followed by the manual ISO-8601 reassembly (month names map through
`month_map` with default "01"; the offset is kept verbatim). A prefix
match suffices, as with `re.match`. -/
def fallbackRegex (s : String) : Option String :=
  match eatWord s.data with
  | none => none
  | some (_, r0) =>
  match eatChar ',' r0 with
  | none => none
  | some r1 =>
  match eatChar ' ' r1 with
  | none => none
  | some r2 =>
  match eatDigits r2 with
  | none => none
  | some (day, r3) =>
  match eatChar ' ' r3 with
  | none => none
  | some r4 =>
  match eatWord r4 with
  | none => none
  | some (monthName, r5) =>
  match eatChar ' ' r5 with
  | none => none
  | some r6 =>
  match eatDigits r6 with
  | none => none
  | some (year, r7) =>
  match eatChar ' ' r7 with
  | none => none
  | some r8 =>
  match eatDigits r8 with
  | none => none
  | some (hour, r9) =>
  match eatChar ':' r9 with
  | none => none
  | some r10 =>
  match eatDigits r10 with
  | none => none
  | some (minute, r11) =>
  match eatChar ':' r11 with
  | none => none
  | some r12 =>
  match eatDigits r12 with
  | none => none
  | some (second, r13) =>
  match eatChar ' ' r13 with
  | none => none
  | some r14 =>
  match r14 with
  | sg :: a :: b :: c :: d :: _ =>
      if (sg = '+' || sg = '-') && a.isDigit && b.isDigit && c.isDigit && d.isDigit then
        let month :=
          match month_map.find? (fun p => p.1 = monthName) with
          | some p => p.2
          | none => "01"
        some (year ++ "-" ++ month ++ "-" ++ padZeros 2 day ++ "T" ++ padZeros 2 hour ++
          ":" ++ padZeros 2 minute ++ ":" ++ padZeros 2 second ++
          String.mk [sg, a, b, c, d])
      else none
  | _ => none

/-- `_convert_to_iso8601`: known formats in order, then the manual regex
fallback, then the original text unchanged. -/
def convert_to_iso8601 (date_text : String) : String :=
  if date_text = "" then ""
  else
    match tryKnownFormats date_text with
    | some iso => iso
    | none =>
      match fallbackRegex date_text with
      | some iso => iso
      | none => date_text

/-!
HTML cleaning, embedding `_clean_html_for_rag`
(`src/jira/xml_extractors.py` lines 161-252).

The input string is parsed with `html.parser`; for the attribute-free,
well-formed fragments the extractor feeds it, that parse is the tree
below.  Each conversion pass iterates `find_all` in document order and
`replace_with`s matching elements by formatted text; replacing an
element detaches its subtree, so matches nested inside an already
replaced match have no effect — equivalently, each pass rewrites
outermost matches first and does not descend into replaced ones.
-/

inductive HTok where
  | htext : String → HTok
  | tagOpen : String → List (String × String) → Bool → HTok
  | tagClose : String → HTok

/-- HTML void elements `html.parser` closes immediately. -/
def voidTags : List String := ["br", "hr", "img", "input", "meta", "link"]

def parseAttrs : Nat → List Char → List (String × String)
  | 0, _ => []
  | _, [] => []
  | fuel + 1, cs =>
      let cs := cs.dropWhile isPySpace
      match cs with
      | [] => []
      | _ =>
          let nm := cs.takeWhile (fun c => c ≠ '=' && !isPySpace c && c ≠ '/')
          let rest := cs.drop nm.length
          if nm.isEmpty then parseAttrs fuel (cs.drop 1)
          else
            match rest with
            | '=' :: '"' :: r2 =>
                let v := r2.takeWhile (fun c => c ≠ '"')
                (String.mk (nm.map Char.toLower), String.mk v) ::
                  parseAttrs fuel (r2.drop (v.length + 1))
            | '=' :: r2 =>
                let v := r2.takeWhile (fun c => !isPySpace c)
                (String.mk (nm.map Char.toLower), String.mk v) ::
                  parseAttrs fuel (r2.drop v.length)
            | r2 => (String.mk (nm.map Char.toLower), "") :: parseAttrs fuel r2

def mkOpenTok (inside : List Char) : HTok :=
  let selfClose := inside.getLast? = some '/'
  let core := if selfClose then inside.dropLast else inside
  let nm := core.takeWhile (fun c => c.isAlpha || c.isDigit)
  .tagOpen (String.mk (nm.map Char.toLower)) (parseAttrs (core.length + 1) (core.drop nm.length))
    selfClose

def lexHtml : Nat → List Char → List HTok
  | 0, _ => []
  | _, [] => []
  | fuel + 1, cs =>
      match cs with
      | '<' :: '/' :: rest =>
          let inside := rest.takeWhile (fun c => c ≠ '>')
          .tagClose (String.mk ((inside.takeWhile (fun c => c.isAlpha || c.isDigit)).map Char.toLower)) ::
            lexHtml fuel (rest.drop (inside.length + 1))
      | '<' :: c :: rest =>
          if c.isAlpha then
            let inside := (c :: rest).takeWhile (fun ch => ch ≠ '>')
            mkOpenTok inside :: lexHtml fuel ((c :: rest).drop (inside.length + 1))
          else
            .htext "<" :: lexHtml fuel (c :: rest)
      | '<' :: rest => .htext "<" :: lexHtml fuel rest
      | _ =>
          let t := cs.takeWhile (fun c => c ≠ '<')
          .htext (String.mk t) :: lexHtml fuel (cs.drop t.length)

def buildNodes : Nat → Option String → List HTok → List Node × List HTok
  | 0, _, toks => ([], toks)
  | _, _, [] => ([], [])
  | fuel + 1, closing, tok :: rest =>
      match tok with
      | .htext s =>
          let r := buildNodes fuel closing rest
          (.text s :: r.1, r.2)
      | .tagClose nm =>
          if closing = some nm then ([], rest)
          else
            let r := buildNodes fuel closing rest
            (r.1, r.2)
      | .tagOpen nm attrs selfClose =>
          if selfClose || voidTags.contains nm then
            let r := buildNodes fuel closing rest
            (.elem nm attrs [] :: r.1, r.2)
          else
            let inner := buildNodes fuel (some nm) rest
            let r := buildNodes fuel closing inner.2
            (.elem nm attrs inner.1 :: r.1, r.2)

def parseHtml (s : String) : List Node :=
  (buildNodes (s.data.length + 2) none (lexHtml (s.data.length + 1) s.data)).1

mutual

/-- One `find_all` + `replace_with` pass: a matching element becomes the
text the matcher produces and its subtree is dropped; a non-matching
element keeps its name and attributes and the pass recurses into its
children. -/
def transformNode (f : Node → Option String) : Node → Node
  | .text s => .text s
  | .elem nm a cs =>
      match f (.elem nm a cs) with
      | some repl => .text repl
      | none => .elem nm a (transformList f cs)

def transformList (f : Node → Option String) : List Node → List Node
  | [] => []
  | n :: ns => transformNode f n :: transformList f ns

end

def nodeName : Node → Option String
  | .text _ => none
  | .elem nm _ _ => some nm

def headerMatcher (i : Nat) (n : Node) : Option String :=
  if nodeName n = some ("h" ++ toString i) then
    let t := getTextStripNode n
    if t ≠ "" then some ("\n" ++ String.mk (List.replicate i '#') ++ " " ++ t ++ "\n")
    else none
  else none

def preMatcher (n : Node) : Option String :=
  if nodeName n = some "pre" then some ("\n\n```\n" ++ getTextNode n ++ "\n```\n\n") else none

def codeMatcher (n : Node) : Option String :=
  if nodeName n = some "code" then some ("`" ++ getTextNode n ++ "`") else none

def boldMatcher (n : Node) : Option String :=
  if nodeName n = some "strong" || nodeName n = some "b" then
    some ("**" ++ getTextNode n ++ "**")
  else none

def italicMatcher (n : Node) : Option String :=
  if nodeName n = some "em" || nodeName n = some "i" then
    some ("*" ++ getTextNode n ++ "*")
  else none

def linkMatcher (n : Node) : Option String :=
  if nodeName n = some "a" then
    let t := getTextStripNode n
    let href := getAttr n "href" ""
    if href ≠ "" && t ≠ "" then some ("[" ++ t ++ "](" ++ href ++ ")")
    else if t ≠ "" then some t
    else none
  else none

def brMatcher (n : Node) : Option String :=
  if nodeName n = some "br" then some "\n" else none

def pMatcher (n : Node) : Option String :=
  if nodeName n = some "p" then
    let t := getTextStripNode n
    if t ≠ "" then some (t ++ "\n\n") else none
  else none

def isPrefixList : List Char → List Char → Bool
  | [], _ => true
  | _ :: _, [] => false
  | p :: ps, c :: cs => p = c && isPrefixList ps cs

/-- Python `str.split(sep)` for a non-empty separator. -/
def splitOnAux (sep : List Char) : Nat → List Char → List Char → List (List Char)
  | 0, acc, cs => [acc.reverse ++ cs]
  | _ + 1, acc, [] => [acc.reverse]
  | fuel + 1, acc, c :: cs =>
      if isPrefixList sep (c :: cs) then
        acc.reverse :: splitOnAux sep fuel [] ((c :: cs).drop sep.length)
      else splitOnAux sep fuel (c :: acc) cs

def pySplit (sep : String) (s : String) : List String :=
  (splitOnAux sep.data (s.data.length + 1) [] s.data).map String.mk

/-- Python `sep.join(parts)`. -/
def joinSep (sep : String) : List String → String
  | [] => ""
  | [x] => x
  | x :: xs => x ++ sep ++ joinSep sep xs

/-- The body of the list-items loop: skip an item whose stripped text is
empty; an item containing a fence is split on the fences and reassembled
as alternating text/code segments; otherwise prefix with "- ". -/
def liItem (li : Node) : Option String :=
  let li_text := getTextStripNode li
  if li_text = "" then none
  else
    let parts := pySplit "```" li_text
    if parts.length > 1 then
      let formatted := (parts.enum).filterMap (fun p =>
        let part := pyStrip p.2
        if part ≠ "" && p.1 % 2 = 0 then some ("- " ++ part)
        else if part ≠ "" && p.1 % 2 = 1 then some ("\n```\n" ++ part ++ "\n```\n")
        else none)
      some (joinSep "\n" formatted)
    else some ("- " ++ li_text)

def ulMatcher (n : Node) : Option String :=
  if nodeName n = some "ul" then
    let items := (findAllTagList "li" (childrenOf n)).filterMap liItem
    if items ≠ [] then some ("\n" ++ joinSep "\n" items ++ "\n") else none
  else none

/-- Whitespace-run prefix lengths in greedy (`\s*`, longest-first)
backtracking order. -/
def wsLens (cs : List Char) : List Nat :=
  let k := (cs.takeWhile isPySpace).length
  (List.range (k + 1)).map (fun i => k - i)

def sub1m3 (cs : List Char) : Option (List Char) :=
  (wsLens cs).findSome? (fun l =>
    match cs.drop l with
    | '\n' :: r => some r
    | _ => none)

def sub1m2 (cs : List Char) : Option (List Char) :=
  (wsLens cs).findSome? (fun l =>
    match cs.drop l with
    | '\n' :: r => sub1m3 r
    | _ => none)

/-- A leftmost match of `\n\s*\n\s*\n` starting here, returning the rest
after the match. -/
def tryMatch1 : List Char → Option (List Char)
  | '\n' :: r => sub1m2 r
  | _ => none

/-- `re.sub(r"\n\s*\n\s*\n", "\n\n", ...)`: left-to-right,
non-overlapping. -/
def sub1 : Nat → List Char → List Char
  | 0, cs => cs
  | _ + 1, [] => []
  | fuel + 1, c :: rest =>
      match tryMatch1 (c :: rest) with
      | some r => '\n' :: '\n' :: sub1 fuel r
      | none => c :: sub1 fuel rest

/-- `re.sub(r"[ \t]+", " ", ...)`: each maximal blank run becomes one
space. -/
def sub2 : List Char → List Char :=
  List.foldr (fun c acc =>
    if isBlank c then
      match acc with
      | ' ' :: t => ' ' :: t
      | _ => ' ' :: acc
    else c :: acc) []

/-- `re.sub(r"\n ", "\n", ...)`: left-to-right, non-overlapping. -/
def sub3 : List Char → List Char
  | '\n' :: ' ' :: rest => '\n' :: sub3 rest
  | c :: rest => c :: sub3 rest
  | [] => []

/-- `_clean_html_for_rag`: parse, the ordered conversion passes
(headers, pre, code, bold, italic, links, br, p, ul last), then the
whitespace cleanup and a final strip. -/
def _clean_html_for_rag (text : String) : String :=
  if text = "" then ""
  else
    let ns := parseHtml text
    let ns := transformList (headerMatcher 1) ns
    let ns := transformList (headerMatcher 2) ns
    let ns := transformList (headerMatcher 3) ns
    let ns := transformList (headerMatcher 4) ns
    let ns := transformList (headerMatcher 5) ns
    let ns := transformList (headerMatcher 6) ns
    let ns := transformList preMatcher ns
    let ns := transformList codeMatcher ns
    let ns := transformList boldMatcher ns
    let ns := transformList italicMatcher ns
    let ns := transformList linkMatcher ns
    let ns := transformList brMatcher ns
    let ns := transformList pMatcher ns
    let ns := transformList ulMatcher ns
    let result := getTextList ns
    pyStrip (String.mk (sub3 (sub2 (sub1 (result.data.length + 1) result.data))))

/-!
Extraction, embedding `JIRAXMLDataExtractor.extract_ticket_data`
(`src/jira/xml_extractors.py` lines 19-75 and helpers).

The input is the XML export parsed by `BeautifulSoup(xml_content, "xml")`
into a forest of nodes; parsing never raises, so totality of the
extractor over parsed documents is totality over raw strings.
-/

structure RelatedTicket where
  id : String
  title : String
  type : String
  priority : String
  status : String
  relationship : String
  section_name : String
deriving DecidableEq

structure Subtask where
  id : String
  title : String
deriving DecidableEq

structure Comment where
  author : String
  created : String
  body : String
deriving DecidableEq

structure TicketData where
  id : String
  title : String
  type : String
  status : String
  priority : String
  assignee : String
  reporter : String
  created : String
  updated : String
  resolution : String
  description : String
  environment : String
  parent : Option String
  labels : List String
  components : List String
  fix_versions : List String
  related_tickets : List RelatedTicket
  subtasks : List Subtask
  comments : List Comment
deriving DecidableEq

/-- The empty dict returned when no issue element is found. -/
def emptyTicketData : TicketData :=
  TicketData.mk "" "" "" "" "" "" "" "" "" "" "" "" none [] [] [] [] [] []

/-- `_extract_text`: find the tag, HTML-clean its stripped text; "" when
the tag is absent. -/
def _extract_text (element : Node) (tag_name : String) : String :=
  match findTagList tag_name (childrenOf element) with
  | some tag => _clean_html_for_rag (getTextStripNode tag)
  | none => ""

/-- `_extract_date`: find the tag, date-normalize its stripped text; ""
when the tag is absent or its text empty. -/
def _extract_date (element : Node) (tag_name : String) : String :=
  match findTagList tag_name (childrenOf element) with
  | some tag =>
      let date_text := getTextStripNode tag
      if date_text ≠ "" then convert_to_iso8601 date_text else ""
  | none => ""

def _extract_labels (issue : Node) : List String :=
  match findTagList "labels" (childrenOf issue) with
  | some labels_elem => (findAllTagList "label" (childrenOf labels_elem)).map getTextStripNode
  | none => []

def _extract_components (issue : Node) : List String :=
  match findTagList "components" (childrenOf issue) with
  | some components_elem =>
      (findAllTagList "component" (childrenOf components_elem)).map getTextStripNode
  | none => []

def _extract_fix_versions (issue : Node) : List String :=
  match findTagList "fixVersions" (childrenOf issue) with
  | some fv_elem => (findAllTagList "fixVersion" (childrenOf fv_elem)).map getTextStripNode
  | none => []

/-- `_get_section_name`: first `issuelinktype` that has links in the
given direction and carries a `name` element wins; default
"Related Issues". -/
def _get_section_name (issuelinks : Node) (direction : String) : String :=
  match (findAllTagList "issuelinktype" (childrenOf issuelinks)).findSome? (fun link_type =>
      if direction = "inward" then
        match findTagList "inwardlinks" (childrenOf link_type) with
        | some _ =>
            match findTagList "name" (childrenOf link_type) with
            | some name_elem => some (getTextStripNode name_elem)
            | none => none
        | none => none
      else
        match findTagList "outwardlinks" (childrenOf link_type) with
        | some _ =>
            match findTagList "name" (childrenOf link_type) with
            | some name_elem => some (getTextStripNode name_elem)
            | none => none
        | none => none) with
  | some nm => nm
  | none => "Related Issues"

def _extract_issue_links (issue : Node) : List RelatedTicket :=
  match findTagList "issuelinks" (childrenOf issue) with
  | none => []
  | some issuelinks =>
      let inward :=
        match findTagList "inwardlinks" (childrenOf issuelinks) with
        | none => []
        | some inwardlinks =>
            let relationship := getAttr inwardlinks "description" "relates to"
            let section_name := _get_section_name issuelinks "inward"
            (findAllTagList "issuelink" (childrenOf inwardlinks)).filterMap (fun link =>
              let issue_key := getTextStripNode link
              if issue_key ≠ "" then
                some (RelatedTicket.mk issue_key "" "" "" "" relationship section_name)
              else none)
      let outward :=
        match findTagList "outwardlinks" (childrenOf issuelinks) with
        | none => []
        | some outwardlinks =>
            let relationship := getAttr outwardlinks "description" "relates to"
            let section_name := _get_section_name issuelinks "outward"
            (findAllTagList "issuelink" (childrenOf outwardlinks)).filterMap (fun link =>
              let issue_key := getTextStripNode link
              if issue_key ≠ "" then
                some (RelatedTicket.mk issue_key "" "" "" "" relationship section_name)
              else none)
      inward ++ outward

def _extract_subtasks (issue : Node) : List Subtask :=
  (findAllTagList "subtask" (childrenOf issue)).filterMap (fun subtask =>
    let subtask_id := getAttr subtask "key" ""
    if subtask_id ≠ "" then some (Subtask.mk subtask_id (getTextStripNode subtask)) else none)

def _extract_comments (issue : Node) : List Comment :=
  match findTagList "comments" (childrenOf issue) with
  | none => []
  | some comments_elem =>
      (findAllTagList "comment" (childrenOf comments_elem)).map (fun comment =>
        Comment.mk (getAttr comment "author" "Unknown")
          (convert_to_iso8601 (getAttr comment "created" ""))
          (_clean_html_for_rag (getTextStripNode comment)))

/-- `extract_ticket_data` over the parsed export: find the `item`
element; absent, return the empty record; otherwise fill every field
from the helpers above. -/
def extract_ticket_data (doc : List Node) : TicketData :=
  match findTagList "item" doc with
  | none => emptyTicketData
  | some issue =>
      { id := _extract_text issue "key"
        title := _extract_text issue "summary"
        type := _extract_text issue "type"
        status := _extract_text issue "status"
        priority := _extract_text issue "priority"
        assignee := _extract_text issue "assignee"
        reporter := _extract_text issue "reporter"
        created := _extract_date issue "created"
        updated := _extract_date issue "updated"
        resolution := _extract_text issue "resolution"
        description := _extract_text issue "description"
        environment := _extract_text issue "environment"
        parent := (findTagList "parent" (childrenOf issue)).map getTextStripNode
        labels := _extract_labels issue
        components := _extract_components issue
        fix_versions := _extract_fix_versions issue
        related_tickets := _extract_issue_links issue
        subtasks := _extract_subtasks issue
        comments := _extract_comments issue }

/-!
Scraper, embedding `JIRARequestsScraper`
(`src/data/jira/scraper.py`).

The network is an oracle: for each ticket id and attempt number it
yields either a response (status code and parsed body) or a raised
requests exception.  `save_ticket` is an oracle from the record to the
boolean it returns.  Sleeps are recorded, not performed; the float
`delay` is modelled as a rational.
-/

inductive HttpResult where
  | response : Nat → List Node → HttpResult
  | netError : String → HttpResult

/-- The body of `get_ticket_data`, before its catch-all `except`:
404 returns None; `raise_for_status` raises on any other 4xx/5xx; else
extract and substitute the requested id when the record has none. -/
def get_ticket_data_inner (r : HttpResult) (ticket_id : String) :
    Except String (Option TicketData) :=
  match r with
  | .netError msg => .error msg
  | .response status body =>
      if status = 404 then .ok none
      else if 400 ≤ status ∧ status < 600 then .error "HTTPError"
      else
        let ticket_data := extract_ticket_data body
        let ticket_data :=
          if ticket_data.id = "" then { ticket_data with id := ticket_id } else ticket_data
        .ok (some ticket_data)

/-- `get_ticket_data`: the whole body runs inside `try/except Exception`,
so every error becomes None. -/
def get_ticket_data (r : HttpResult) (ticket_id : String) : Option TicketData :=
  match get_ticket_data_inner r ticket_id with
  | .ok v => v
  | .error _ => none

structure CrawlStats where
  total_attempted : Nat
  successful : Nat
  failed : Nat
  not_found : Nat
deriving DecidableEq

/-- A crawl outcome together with the observable side effects the claims
speak about: how many calls to `get_ticket_data` ran and which backoff
sleeps happened inside the retry loop (the per-ticket rate-limit sleeps
are counted separately). -/
structure CrawlResult where
  stats : CrawlStats
  fetch_attempts : Nat
  backoff_sleeps : List ℚ
  rate_sleeps : Nat
deriving DecidableEq

/-- One call of the retry loop body
`try: ticket_data = self.get_ticket_data(ticket_id); break` —
`get_ticket_data` catches internally, so the body never raises. -/
def attempt_get (fetch : Nat → HttpResult) (ticket_id : String) (attempt : Nat) :
    Except String (Option TicketData) :=
  .ok (get_ticket_data (fetch attempt) ticket_id)

/-- The `for attempt in range(max_retries)` loop: on a body value,
break; on a raised exception, sleep `delay * (attempt + 1)` unless this
was the last attempt. Returns the final `ticket_data`, the number of
body calls, and the backoff sleeps. Called with `remaining =
max_retries` and `attempt = 0`. -/
def retry_loop (body : Nat → Except String (Option TicketData)) (delay : ℚ) :
    Nat → Nat → Option TicketData × Nat × List ℚ
  | 0, _ => (none, 0, [])
  | remaining + 1, attempt =>
      match body attempt with
      | .ok v => (v, 1, [])
      | .error _ =>
          if remaining = 0 then (none, 1, [])
          else
            let rest := retry_loop body delay remaining (attempt + 1)
            (rest.1, rest.2.1 + 1, delay * ((attempt + 1 : ℕ) : ℚ) :: rest.2.2)

/-- `range(start_id, end_id + 1)`. -/
def idRange (start_id end_id : Int) : List Int :=
  (List.range (end_id + 1 - start_id).toNat).map (fun i => start_id + i)

/-- The per-ticket body of `crawl_tickets`: count the attempt, run the
retry loop, then bump exactly one of successful (save returned True),
failed (save returned False) or not_found (no ticket data), and sleep
the rate-limit delay. -/
def crawl_step (fetch : Int → Nat → HttpResult) (save : TicketData → Bool)
    (project_key : String) (delay : ℚ) (max_retries : Nat)
    (acc : CrawlResult) (ticket_num : Int) : CrawlResult :=
  let ticket_id := project_key ++ "-" ++ toString ticket_num
  let r := retry_loop (attempt_get (fetch ticket_num) ticket_id) delay max_retries 0
  let stats := acc.stats
  let stats := { stats with total_attempted := stats.total_attempted + 1 }
  let stats :=
    match r.1 with
    | some ticket_data =>
        if save ticket_data then { stats with successful := stats.successful + 1 }
        else { stats with failed := stats.failed + 1 }
    | none => { stats with not_found := stats.not_found + 1 }
  CrawlResult.mk stats (acc.fetch_attempts + r.2.1) (acc.backoff_sleeps ++ r.2.2)
    (acc.rate_sleeps + 1)

/-- `crawl_tickets`: authenticate once; on failure return all-zero stats
immediately; otherwise fold the per-ticket body over the inclusive
range. -/
def crawl_tickets (auth_ok : Bool) (fetch : Int → Nat → HttpResult)
    (save : TicketData → Bool) (project_key : String) (start_id end_id : Int)
    (delay : ℚ) (max_retries : Nat) : CrawlResult :=
  if auth_ok then
    (idRange start_id end_id).foldl (crawl_step fetch save project_key delay max_retries)
      (CrawlResult.mk (CrawlStats.mk 0 0 0 0) 0 [] 0)
  else CrawlResult.mk (CrawlStats.mk 0 0 0 0) 0 [] 0

/-- `JIRARequestsScraper.ensure_authenticated` as a state transformer:
given the result the authenticator flow would produce and the cached
`_authenticated` flag, return (returned value, new flag, whether the
flow ran). -/
def ensure_authenticated (flow_result : Bool) (authenticated : Bool) :
    Bool × Bool × Bool :=
  if authenticated then (true, true, false)
  else (flow_result, flow_result, true)

/-- `n` successive calls of `ensure_authenticated` on one scraper whose
authenticator flow would return `oracle i` at the i-th call: final flag
and how many times the flow ran. -/
def run_auth_calls (oracle : Nat → Bool) : Nat → Bool × Nat
  | 0 => (false, 0)
  | n + 1 =>
      let prev := run_auth_calls oracle n
      let step := ensure_authenticated (oracle n) prev.1
      (step.2.1, prev.2 + (if step.2.2 then 1 else 0))

/-!
Concrete fixtures used by the theorems below.
-/

/-- A network that raises a requests exception on every attempt: a
transient fetch failure in the taxonomy of the spec. -/
def fetchTransient : Int → Nat → HttpResult := fun _ _ => .netError "connection error"

/-- A network that answers 404 to every request. -/
def fetchNotFound : Int → Nat → HttpResult := fun _ _ => .response 404 []

/-- A writer whose `save_ticket` always succeeds. -/
def saveAlways : TicketData → Bool := fun _ => true

/-- A `status` element whose text content is an escaped HTML fragment. -/
def statusBoldTag : Node := Node.elem "status" [] [Node.text "<b>Open</b>"]

/-- An export whose issue carries only that `status` element. -/
def docStatusBold : List Node := [Node.elem "item" [] [statusBoldTag]]

/-- An export with an issue element that has no children at all. -/
def docEmptyItem : List Node := [Node.elem "item" [] []]

/-- Modelled from the spec: "other scalars are extracted as plain
trimmed text" — the stripped text content of the tag, with no
HTML-cleaning rewrite applied. -/
def plain_trimmed_text (tag : Node) : String := getTextStripNode tag

/-- An authenticator flow that fails at the first call and succeeds from
the second call on. -/
def oFailThenOk : Nat → Bool := fun i => decide (1 ≤ i)

/-!
Helper lemmas about the crawl fold.
-/

theorem crawl_step_total (fetch : Int → Nat → HttpResult) (save : TicketData → Bool)
    (pk : String) (d : ℚ) (mr : Nat) (acc : CrawlResult) (n : Int) :
    (crawl_step fetch save pk d mr acc n).stats.total_attempted =
      acc.stats.total_attempted + 1 := by
  unfold crawl_step
  cases h : (retry_loop (attempt_get (fetch n) (pk ++ "-" ++ toString n)) d mr 0).1 with
  | none => simp [h]
  | some td =>
      by_cases hs : save td <;> simp [h, hs]

theorem crawl_step_sum (fetch : Int → Nat → HttpResult) (save : TicketData → Bool)
    (pk : String) (d : ℚ) (mr : Nat) (acc : CrawlResult) (n : Int) :
    (crawl_step fetch save pk d mr acc n).stats.successful +
      (crawl_step fetch save pk d mr acc n).stats.failed +
      (crawl_step fetch save pk d mr acc n).stats.not_found =
      acc.stats.successful + acc.stats.failed + acc.stats.not_found + 1 := by
  unfold crawl_step
  cases h : (retry_loop (attempt_get (fetch n) (pk ++ "-" ++ toString n)) d mr 0).1 with
  | none => simp [h]; omega
  | some td =>
      by_cases hs : save td <;> simp [h, hs] <;> omega

theorem crawl_foldl_total (fetch : Int → Nat → HttpResult) (save : TicketData → Bool)
    (pk : String) (d : ℚ) (mr : Nat) :
    ∀ (l : List Int) (acc : CrawlResult),
      ((l.foldl (crawl_step fetch save pk d mr) acc).stats.total_attempted) =
        acc.stats.total_attempted + l.length := by
  intro l
  induction l with
  | nil => intro acc; simp
  | cons n t ih =>
      intro acc
      rw [List.foldl_cons, ih, crawl_step_total]
      simp only [List.length_cons]
      omega

theorem crawl_foldl_sum (fetch : Int → Nat → HttpResult) (save : TicketData → Bool)
    (pk : String) (d : ℚ) (mr : Nat) :
    ∀ (l : List Int) (acc : CrawlResult),
      ((l.foldl (crawl_step fetch save pk d mr) acc).stats.successful +
        (l.foldl (crawl_step fetch save pk d mr) acc).stats.failed +
        (l.foldl (crawl_step fetch save pk d mr) acc).stats.not_found) =
        acc.stats.successful + acc.stats.failed + acc.stats.not_found + l.length := by
  intro l
  induction l with
  | nil => intro acc; simp
  | cons n t ih =>
      intro acc
      rw [List.foldl_cons, ih, crawl_step_sum]
      simp only [List.length_cons]
      omega

/-- C1: for every call of `crawl_tickets`, over any inclusive range
(including empty and single-element ranges), the returned stats satisfy
`total_attempted = successful + failed + not_found`; each processed id
bumps `total_attempted` by one and exactly one of the three outcome
counters, so when authentication succeeds `total_attempted` equals the
length of the range. -/
theorem crawl_stats_invariant (auth_ok : Bool) (fetch : Int → Nat → HttpResult)
    (save : TicketData → Bool) (project_key : String) (start_id end_id : Int)
    (delay : ℚ) (max_retries : Nat) :
    (crawl_tickets auth_ok fetch save project_key start_id end_id delay max_retries).stats.total_attempted =
      (crawl_tickets auth_ok fetch save project_key start_id end_id delay max_retries).stats.successful +
      (crawl_tickets auth_ok fetch save project_key start_id end_id delay max_retries).stats.failed +
      (crawl_tickets auth_ok fetch save project_key start_id end_id delay max_retries).stats.not_found ∧
    (auth_ok = true →
      (crawl_tickets auth_ok fetch save project_key start_id end_id delay max_retries).stats.total_attempted =
        (idRange start_id end_id).length) := by
  cases auth_ok with
  | false => exact ⟨by simp [crawl_tickets], fun h => by cases h⟩
  | true =>
      constructor
      · unfold crawl_tickets
        simp only [if_pos]
        rw [crawl_foldl_total, crawl_foldl_sum]
        simp
      · intro _
        unfold crawl_tickets
        simp only [if_pos]
        rw [crawl_foldl_total]
        simp

/-- C1 witness: the invariant at a concrete crawl over ids 1..3. -/
theorem crawl_stats_invariant_witness :
    (crawl_tickets true fetchNotFound saveAlways "SL" 1 3 1 3).stats.total_attempted =
      (crawl_tickets true fetchNotFound saveAlways "SL" 1 3 1 3).stats.successful +
      (crawl_tickets true fetchNotFound saveAlways "SL" 1 3 1 3).stats.failed +
      (crawl_tickets true fetchNotFound saveAlways "SL" 1 3 1 3).stats.not_found ∧
    (crawl_tickets true fetchNotFound saveAlways "SL" 1 3 1 3).stats.total_attempted =
      (idRange 1 3).length :=
  ⟨(crawl_stats_invariant true fetchNotFound saveAlways "SL" 1 3 1 3).1,
   (crawl_stats_invariant true fetchNotFound saveAlways "SL" 1 3 1 3).2 rfl⟩

/-- C2: evidence against the claim — a ticket whose fetch raises a
transient (non-404) error on every attempt ends in `not_found`, with
`failed` untouched: `get_ticket_data` swallows every exception and
returns None, which the crawl loop cannot distinguish from a 404. -/
theorem crawl_transient_error_counted_not_found :
    crawl_tickets true fetchTransient saveAlways "SL" 5 5 1 3 =
      CrawlResult.mk (CrawlStats.mk 1 0 0 1) 1 [] 1 := by decide

/-- C3: evidence against the retry half of the claim — with
`max_retries = 3` and a transient failure on every attempt, the loop
performs exactly one fetch attempt and no backoff sleep, because
`get_ticket_data` never raises and the loop breaks on its first return;
the 404 half does hold: a 404 yields None immediately with a single
attempt. -/
theorem crawl_transient_error_not_retried :
    (crawl_tickets true fetchTransient saveAlways "SL" 5 5 1 3).fetch_attempts = 1 ∧
    (crawl_tickets true fetchTransient saveAlways "SL" 5 5 1 3).backoff_sleeps = [] ∧
    get_ticket_data (HttpResult.response 404 []) "SL-5" = none ∧
    (crawl_tickets true fetchNotFound saveAlways "SL" 5 5 1 3).fetch_attempts = 1 ∧
    (crawl_tickets true fetchNotFound saveAlways "SL" 5 5 1 3).backoff_sleeps = [] := by
  decide

/-- C4 counterexample: the `status` scalar of a concrete export is
extracted through `_clean_html_for_rag` — the bold fragment in its text
is rewritten to markdown, not the plain trimmed text the claim
promises. -/
theorem scalar_status_not_plain_text :
    (extract_ticket_data docStatusBold).status = "**Open**" ∧
    plain_trimmed_text statusBoldTag = "<b>Open</b>" ∧
    (extract_ticket_data docStatusBold).status ≠ plain_trimmed_text statusBoldTag := by
  decide

/-- C4 (amended): HTML cleaning is applied to every text scalar, not only
the rich-text ones — for each of title, type, status, priority,
assignee, reporter and resolution, the extracted value is
`_clean_html_for_rag` of the stripped text of the tag. -/
theorem html_cleaning_applied_to_all_scalars (doc : List Node) (issue : Node)
    (hitem : findTagList "item" doc = some issue) :
    (∀ tag, findTagList "summary" (childrenOf issue) = some tag →
      (extract_ticket_data doc).title = _clean_html_for_rag (getTextStripNode tag)) ∧
    (∀ tag, findTagList "type" (childrenOf issue) = some tag →
      (extract_ticket_data doc).type = _clean_html_for_rag (getTextStripNode tag)) ∧
    (∀ tag, findTagList "status" (childrenOf issue) = some tag →
      (extract_ticket_data doc).status = _clean_html_for_rag (getTextStripNode tag)) ∧
    (∀ tag, findTagList "priority" (childrenOf issue) = some tag →
      (extract_ticket_data doc).priority = _clean_html_for_rag (getTextStripNode tag)) ∧
    (∀ tag, findTagList "assignee" (childrenOf issue) = some tag →
      (extract_ticket_data doc).assignee = _clean_html_for_rag (getTextStripNode tag)) ∧
    (∀ tag, findTagList "reporter" (childrenOf issue) = some tag →
      (extract_ticket_data doc).reporter = _clean_html_for_rag (getTextStripNode tag)) ∧
    (∀ tag, findTagList "resolution" (childrenOf issue) = some tag →
      (extract_ticket_data doc).resolution = _clean_html_for_rag (getTextStripNode tag)) := by
  refine ⟨?_, ?_, ?_, ?_, ?_, ?_, ?_⟩ <;>
    · intro tag htag
      simp [extract_ticket_data, hitem, _extract_text, htag]

/-- C4 witness: the amended equation at the concrete export. -/
theorem html_cleaning_applied_witness :
    (extract_ticket_data docStatusBold).status =
      _clean_html_for_rag (getTextStripNode statusBoldTag) :=
  (html_cleaning_applied_to_all_scalars docStatusBold (Node.elem "item" [] [statusBoldTag])
      rfl).2.2.1 statusBoldTag rfl

/-- C5: date normalization maps the RFC-822 example to exactly its
ISO-8601 form; and any non-empty input matched by none of the five known
formats nor by the fallback regex is returned unchanged — in particular
never as the empty string (the embedding is a total function, as the
original is wrapped in a catch-all returning the input). -/
theorem convert_to_iso8601_spec :
    convert_to_iso8601 "Thu, 19 Jun 2025 15:01:03 +0700" = "2025-06-19T15:01:03+07:00" ∧
    ∀ s : String, s ≠ "" → tryKnownFormats s = none → fallbackRegex s = none →
      convert_to_iso8601 s = s ∧ convert_to_iso8601 s ≠ "" := by
  refine ⟨by decide, ?_⟩
  intro s hne h1 h2
  unfold convert_to_iso8601
  rw [if_neg hne, h1, h2]
  exact ⟨rfl, hne⟩

/-- C5 witness: a non-date string passes through unchanged. -/
theorem convert_to_iso8601_spec_witness :
    convert_to_iso8601 "n/a" = "n/a" ∧ convert_to_iso8601 "n/a" ≠ "" :=
  convert_to_iso8601_spec.2 "n/a" (by decide) (by decide) (by decide)

/-- C6: the extractor is a total function over parsed documents; every
missing element defaults to the empty string (scalars and dates) or the
empty list (collections), the missing parent stays absent, and a
document without an `item` element yields the fully empty record. -/
theorem extract_ticket_data_defaults (doc : List Node) :
    (findTagList "item" doc = none → extract_ticket_data doc = emptyTicketData) ∧
    (∀ issue, findTagList "item" doc = some issue →
      (findTagList "key" (childrenOf issue) = none → (extract_ticket_data doc).id = "") ∧
      (findTagList "summary" (childrenOf issue) = none → (extract_ticket_data doc).title = "") ∧
      (findTagList "type" (childrenOf issue) = none → (extract_ticket_data doc).type = "") ∧
      (findTagList "status" (childrenOf issue) = none → (extract_ticket_data doc).status = "") ∧
      (findTagList "priority" (childrenOf issue) = none → (extract_ticket_data doc).priority = "") ∧
      (findTagList "assignee" (childrenOf issue) = none → (extract_ticket_data doc).assignee = "") ∧
      (findTagList "reporter" (childrenOf issue) = none → (extract_ticket_data doc).reporter = "") ∧
      (findTagList "resolution" (childrenOf issue) = none → (extract_ticket_data doc).resolution = "") ∧
      (findTagList "description" (childrenOf issue) = none → (extract_ticket_data doc).description = "") ∧
      (findTagList "environment" (childrenOf issue) = none → (extract_ticket_data doc).environment = "") ∧
      (findTagList "created" (childrenOf issue) = none → (extract_ticket_data doc).created = "") ∧
      (findTagList "updated" (childrenOf issue) = none → (extract_ticket_data doc).updated = "") ∧
      (findTagList "labels" (childrenOf issue) = none → (extract_ticket_data doc).labels = []) ∧
      (findTagList "components" (childrenOf issue) = none → (extract_ticket_data doc).components = []) ∧
      (findTagList "fixVersions" (childrenOf issue) = none → (extract_ticket_data doc).fix_versions = []) ∧
      (findTagList "issuelinks" (childrenOf issue) = none → (extract_ticket_data doc).related_tickets = []) ∧
      (findAllTagList "subtask" (childrenOf issue) = [] → (extract_ticket_data doc).subtasks = []) ∧
      (findTagList "comments" (childrenOf issue) = none → (extract_ticket_data doc).comments = []) ∧
      (findTagList "parent" (childrenOf issue) = none → (extract_ticket_data doc).parent = none)) := by
  constructor
  · intro h
    unfold extract_ticket_data
    rw [h]
  · intro issue h
    refine ⟨?_, ?_, ?_, ?_, ?_, ?_, ?_, ?_, ?_, ?_, ?_, ?_, ?_, ?_, ?_, ?_, ?_, ?_, ?_⟩ <;>
      · intro hnone
        simp [extract_ticket_data, h, _extract_text, _extract_date, _extract_labels,
          _extract_components, _extract_fix_versions, _extract_issue_links,
          _extract_subtasks, _extract_comments, hnone]

/-- C6 witness: the empty document yields the empty record; an empty
issue element yields empty scalar and collection fields. -/
theorem extract_ticket_data_defaults_witness :
    extract_ticket_data ([] : List Node) = emptyTicketData ∧
    (extract_ticket_data docEmptyItem).title = "" ∧
    (extract_ticket_data docEmptyItem).labels = [] := by
  refine ⟨(extract_ticket_data_defaults []).1 rfl, ?_, ?_⟩
  · exact ((extract_ticket_data_defaults docEmptyItem).2 (Node.elem "item" [] []) rfl).2.1 rfl
  · exact ((extract_ticket_data_defaults docEmptyItem).2 (Node.elem "item" [] [])
      rfl).2.2.2.2.2.2.2.2.2.2.2.2.1 rfl

/-- C7: the HTML cleaning example — the two-item unordered list cleans to
exactly the two dash-prefixed lines with no surrounding blank lines. -/
theorem clean_html_ul_example :
    _clean_html_for_rag "<ul><li>a</li><li>b</li></ul>" = "- a\n- b" := by decide

/-- C8 counterexample: the flag caches only success — with a flow that
fails at the first call and succeeds at the second, two calls to
`ensure_authenticated` execute the flow twice, refuting "at most once
per process under repeated calls". -/
theorem ensure_authenticated_flow_runs_twice :
    (run_auth_calls oFailThenOk 2).2 = 2 ∧ ¬ (run_auth_calls oFailThenOk 2).2 ≤ 1 := by
  decide

/-- C8 (amended): after any call that succeeded (set the flag), every
later call returns True without executing the flow — so the
login/cookie flow runs at most once from its first success on; before
the first success each call re-executes it. -/
theorem ensure_authenticated_cached_after_success (oracle : Nat → Bool) (n m : Nat)
    (hnm : n ≤ m) (hauth : (run_auth_calls oracle n).1 = true) :
    (run_auth_calls oracle m).1 = true ∧
    (run_auth_calls oracle m).2 = (run_auth_calls oracle n).2 ∧
    ensure_authenticated (oracle m) (run_auth_calls oracle m).1 = (true, true, false) := by
  induction m, hnm using Nat.le_induction with
  | base =>
      refine ⟨hauth, rfl, ?_⟩
      rw [hauth]
      simp [ensure_authenticated]
  | succ m hm ih =>
      obtain ⟨h1, h2, h3⟩ := ih
      have hunfold : run_auth_calls oracle (m + 1) =
          ((ensure_authenticated (oracle m) (run_auth_calls oracle m).1).2.1,
            (run_auth_calls oracle m).2 +
              if (ensure_authenticated (oracle m) (run_auth_calls oracle m).1).2.2 = true
              then 1 else 0) := rfl
      have hstep : run_auth_calls oracle (m + 1) =
          (true, (run_auth_calls oracle m).2) := by
        rw [hunfold, h3]
        rfl
      refine ⟨by rw [hstep], by rw [hstep, h2], ?_⟩
      rw [hstep]
      simp [ensure_authenticated]

/-- C8 witness: with an always-succeeding flow, the second and third
calls after the first change neither the flag nor the flow count. -/
theorem ensure_authenticated_cached_witness :
    (run_auth_calls (fun _ => true) 3).1 = true ∧
    (run_auth_calls (fun _ => true) 3).2 = (run_auth_calls (fun _ => true) 1).2 :=
  ⟨(ensure_authenticated_cached_after_success (fun _ => true) 1 3 (by decide) (by decide)).1,
   (ensure_authenticated_cached_after_success (fun _ => true) 1 3 (by decide) (by decide)).2.1⟩

/-- C9: when authentication fails at the start, `crawl_tickets` returns
the all-zero stats immediately — no fetch attempt, no backoff sleep and
no rate-limit sleep — whatever the range and parameters. -/
theorem crawl_auth_failure_zero_stats (fetch : Int → Nat → HttpResult)
    (save : TicketData → Bool) (project_key : String) (start_id end_id : Int)
    (delay : ℚ) (max_retries : Nat) :
    crawl_tickets false fetch save project_key start_id end_id delay max_retries =
      CrawlResult.mk (CrawlStats.mk 0 0 0 0) 0 [] 0 := rfl

/-- C10: `get_ticket_data` never raises — every error of its body (a
request exception, or the non-success status raised by
`raise_for_status`) is caught and becomes None, so at this interface a
transient error result is indistinguishable from a 404 not-found
result. -/
theorem get_ticket_data_never_raises (ticket_id msg : String) (body : List Node)
    (status : Nat) (r : HttpResult) (e : String) :
    get_ticket_data (HttpResult.netError msg) ticket_id = none ∧
    get_ticket_data (HttpResult.response 404 body) ticket_id = none ∧
    (400 ≤ status → status < 600 → status ≠ 404 →
      get_ticket_data (HttpResult.response status body) ticket_id = none) ∧
    (get_ticket_data_inner r ticket_id = Except.error e →
      get_ticket_data r ticket_id = none) ∧
    get_ticket_data (HttpResult.netError msg) ticket_id =
      get_ticket_data (HttpResult.response 404 body) ticket_id := by
  refine ⟨rfl, rfl, ?_, ?_, rfl⟩
  · intro h4 h6 hne
    have hinner : get_ticket_data_inner (HttpResult.response status body) ticket_id =
        Except.error "HTTPError" := by
      simp only [get_ticket_data_inner]
      rw [if_neg hne, if_pos ⟨h4, h6⟩]
    unfold get_ticket_data
    rw [hinner]
  · intro h
    unfold get_ticket_data
    rw [h]

/-- C10 witness: a concrete 500 response and a concrete network error
both yield None. -/
theorem get_ticket_data_never_raises_witness :
    get_ticket_data (HttpResult.response 500 []) "SL-1" = none ∧
    get_ticket_data (HttpResult.netError "boom") "SL-1" = none :=
  ⟨(get_ticket_data_never_raises "SL-1" "boom" [] 500 (HttpResult.netError "boom") "boom").2.2.1
      (by decide) (by decide) (by decide),
   (get_ticket_data_never_raises "SL-1" "boom" [] 500 (HttpResult.netError "boom") "boom").2.2.2.1
      rfl⟩

end RagDemo
